import Mathlib

set_option autoImplicit false

/-!
Shallow embedding of the multivendor-ecommerce backend core:
the error/response formatter (`errorHandler`, `successHandler`), the
request-logging middleware (`logRequest`), and the startup sequence
(`connectDB` + `app.listen`).  Machine-level JavaScript behaviours that the
source relies on (truthiness of `""`/`0`/`undefined`, first-key extraction
from an object, string slicing) are modelled explicitly.
-/

namespace MVEcom

/-- Modelled from the spec: the external `sanitize-html` library (not part of
`src/`), whose output the spec calls the "sanitized (HTML-stripped) version" of
a string.  The scanner drops every `<...>` tag span; the Bool argument records
whether we are currently inside a tag. -/
def stripTagsAux : Bool → List Char → List Char
  | _, [] => []
  | true, c :: cs => if c = '>' then stripTagsAux false cs else stripTagsAux true cs
  | false, c :: cs => if c = '<' then stripTagsAux true cs else c :: stripTagsAux false cs

/-- Modelled from the spec: `sanitize` from `sanitize-html` — an HTML strip. -/
def sanitize (s : String) : String := String.mk (stripTagsAux false s.data)

/-- JS `String.prototype.startsWith` (also the behaviour of Lean's own
`String.startsWith`), on the character list so that it evaluates by `decide`. -/
def startsWith (s pre : String) : Bool := pre.data.isPrefixOf s.data

/-- JS `s.slice(0, n)` on a string, as used for `uuidv4().slice(0, 8)`. -/
def jsSlice (s : String) (n : Nat) : String := String.mk (s.data.take n)

/-- A JS `error.code` value: a string (`"RATE_LIMIT_EXCEEDED"`) or a number
(`11000`). -/
inductive JsCode where
  | str (s : String)
  | num (n : Int)
deriving DecidableEq

/-- A value stored in the `errorDetails` object: string, number or boolean. -/
inductive DVal where
  | s (v : String)
  | n (v : Int)
  | b (v : Bool)
deriving DecidableEq

/-- JS truthiness of a `DVal` (`""`, `0` and `false` are falsy). -/
def DVal.truthy : DVal → Bool
  | .s v => v != ""
  | .n v => v != 0
  | .b v => v

/-- JS truthiness of `obj[k]` for an object modelled as an association list:
the property must exist and its value must be truthy.  Used for the source's
`!errorDetails.message` test. -/
def truthyKey (d : List (String × DVal)) (k : String) : Bool :=
  match d.lookup k with
  | some v => v.truthy
  | none => false

/-- Header/property lookup with JS truthiness: a missing header and the empty
string are both falsy, so `h[k] || x` falls through to `x` for either. -/
def truthyLookup (hs : List (String × String)) (k : String) : Option String :=
  match hs.lookup k with
  | some v => if v = "" then none else some v
  | none => none

/-- JS `error.retryAfter || 60` (`undefined` and `0` are falsy). -/
def jsOrRetryAfter (o : Option Int) : Int :=
  match o with
  | some v => if v = 0 then 60 else v
  | none => 60

/-- An inbound request, as far as the middleware and the formatter read it. -/
structure Req where
  headers : List (String × String)
  method : String
  originalUrl : String
  ip : String
  userAgent : Option String
  query : List (String × String)
  /-- `req.body`; `some` models `req.body && typeof req.body === "object"`. -/
  body : Option (List (String × String))
deriving DecidableEq

/-- An error value of unknown shape, as the formatter's shape-sniffing reads
it.  `isError` is `error instanceof Error`; the `isMongoose...`/`isAppError`
flags are the corresponding `instanceof` tests; `name`/`code` are the
`error.name`/`error.code` properties (`none` = `undefined`);
`validationErrors` models `Object.values(error.errors)` as (path, message)
pairs; `keyValue` models `error.keyValue` with JS key order. -/
structure ErrorValue where
  name : Option String
  code : Option JsCode
  message : String
  stack : Option String
  isError : Bool
  isMongooseValidationError : Bool
  validationErrors : List (String × String)
  isMongooseCastError : Bool
  path : String
  value : String
  retryAfter : Option Int
  keyValue : List (String × String)
  isAppError : Bool
  appStatusCode : Int
  isOperational : Bool
deriving DecidableEq

-- Static error messages (the `ERROR_MESSAGES` table of the source).
def ERROR_MESSAGES_validationFailed : String := "Validation failed"
def ERROR_MESSAGES_invalidField (field value : String) : String :=
  "Invalid " ++ field ++ ": " ++ value
def ERROR_MESSAGES_invalidToken : String := "Invalid token. Please login again."
def ERROR_MESSAGES_tokenExpired : String := "Your token has expired. Please login again."
def ERROR_MESSAGES_rateLimitExceeded : String := "Too many requests. Please try again later."
def ERROR_MESSAGES_duplicateEntry : String := "Duplicate entry found."

/-- The mutable (statusCode, message, errorCode, errorDetails) state that the
classification branches of `errorHandler` update in order. -/
structure ClassifyOut where
  statusCode : Int
  message : String
  errorCode : String
  details : List (String × DVal)
deriving DecidableEq

/-- The classification branches of `errorHandler` (source lines 34-98), run in
source order on the initial state; each `if` overwrites exactly the fields the
source assigns.  `statusCode0`/`message0` are the destructured defaults
(500 / "Internal Server Error" at the only call site); `uuidCode` is the
`uuidv4()` drawn for the default error code. -/
def classify (statusCode0 : Int) (message0 : String) (e : ErrorValue)
    (uuidCode : String) : ClassifyOut :=
  let c0 : ClassifyOut :=
    { statusCode := statusCode0
      message := message0
      errorCode := "ERR-" ++ toString statusCode0 ++ "-" ++ jsSlice uuidCode 8
      details := [] }
  -- Mongoose Validation Error
  let c1 := if e.isMongooseValidationError then
      { statusCode := 400
        message := ERROR_MESSAGES_validationFailed
        errorCode := "ERR-VALIDATION-400"
        details := e.validationErrors.map (fun p => (p.1, DVal.s (sanitize p.2))) }
    else c0
  -- Mongoose Cast Error (does not touch details)
  let c2 := if e.isMongooseCastError then
      { c1 with statusCode := 400
                message := ERROR_MESSAGES_invalidField e.path (sanitize e.value)
                errorCode := "ERR-CAST-400" }
    else c1
  -- JWT Errors (do not touch details)
  let c3 := if e.name = some "JsonWebTokenError" then
      { c2 with statusCode := 401
                message := ERROR_MESSAGES_invalidToken
                errorCode := "ERR-JWT-INVALID-401" }
    else c2
  let c4 := if e.name = some "TokenExpiredError" then
      { c3 with statusCode := 401
                message := ERROR_MESSAGES_tokenExpired
                errorCode := "ERR-JWT-EXPIRED-401" }
    else c3
  -- Rate Limit Error
  let c5 := if e.code = some (JsCode.str "RATE_LIMIT_EXCEEDED") then
      { statusCode := 429
        message := ERROR_MESSAGES_rateLimitExceeded
        errorCode := "ERR-RATE-LIMIT-429"
        details := [("retryAfter", DVal.n (jsOrRetryAfter e.retryAfter))] }
    else c4
  -- Duplicate key: `error.name === "MongoServerError" && error.code === 11000`.
  -- The source indexes the first key of `error.keyValue`; an empty `keyValue`
  -- would fault in the source and is modelled as empty details.
  let c6 := if e.name = some "MongoServerError" ∧ e.code = some (JsCode.num 11000) then
      { statusCode := 409
        message := ERROR_MESSAGES_duplicateEntry
        errorCode := "ERR-DUPLICATE-409"
        details :=
          match e.keyValue with
          | [] => []
          | (k, v) :: _ => [("field", DVal.s k), ("value", DVal.s (sanitize v))] }
    else c5
  -- Custom App Error
  let c7 := if e.isAppError then
      { statusCode := e.appStatusCode
        message := sanitize e.message
        errorCode := "ERR-APP-" ++ toString e.appStatusCode
        details := [("isOperational", DVal.b e.isOperational)] }
    else c6
  c7

/-- The JSON error envelope written by `res.status(...).json(response)`.
`details = some d` models presence of the `details` key (spread only when
`Object.keys(errorDetails).length > 0`); `stack = some s` models a `stack`
key surviving JSON serialization (an `undefined` value is dropped). -/
structure ErrResponse where
  status : Int
  success : Bool
  errorCode : String
  message : String
  details : Option (List (String × DVal))
  stack : Option String
deriving DecidableEq

/-- The structured entry passed to `logger.error` by `errorHandler`. -/
structure ErrLog where
  correlationId : String
  method : String
  url : String
  message : String
  statusCode : Int
  errorCode : String
  ip : String
  userAgent : Option String
  stack : Option String
  details : List (String × DVal)
deriving DecidableEq

structure ErrHandlerOut where
  log : ErrLog
  resp : ErrResponse
deriving DecidableEq

/-- The `errorHandler` of the source (part_001 lines 26-129).  `env` is
`process.env.NODE_ENV`; `uuidCorr` and `uuidCode` are the two `uuidv4()`
draws (correlation-id fallback and default error-code suffix). -/
def errorHandler (env : String) (req : Req) (statusCode0 : Int) (message0 : String)
    (e : ErrorValue) (uuidCorr uuidCode : String) : ErrHandlerOut :=
  let correlationId :=
    match truthyLookup req.headers "x-correlation-id" with
    | some v => v
    | none => uuidCorr
  let c := classify statusCode0 message0 e uuidCode
  -- Fallback for native errors (line 101):
  -- `if (error instanceof Error && !errorDetails.message) message = sanitize(error.message)`
  let message :=
    if e.isError && !(truthyKey c.details "message") then sanitize e.message else c.message
  { log :=
      { correlationId := correlationId
        method := req.method
        url := req.originalUrl
        message := message
        statusCode := c.statusCode
        errorCode := c.errorCode
        ip := req.ip
        userAgent := req.userAgent
        stack := if env ≠ "production" then e.stack else none
        details := c.details }
    resp :=
      { status := c.statusCode
        success := false
        errorCode := c.errorCode
        message := message
        details := if 0 < c.details.length then some c.details else none
        stack := if env ≠ "production" then e.stack else none } }

/-- The success envelope body `{success: true, message, data}`. -/
structure SuccessBody (α : Type) where
  success : Bool
  message : String
  data : α
deriving DecidableEq

/-- Output of `successHandler`: the status, the body, and the list of calls the
handler makes to the logger sink (the source makes none). -/
structure SuccessOut (α : Type) where
  status : Int
  body : SuccessBody α
  logs : List String
deriving DecidableEq

/-- The `successHandler` of the source (part_001 lines 131-142): a pure mapping
to the fixed envelope; it performs no logging and no error classification. -/
def successHandler {α : Type} (statusCode : Int) (message : String) (data : α) :
    SuccessOut α :=
  { status := statusCode
    body := { success := true, message := message, data := data }
    logs := [] }

-- Sensitive query/body parameters to mask
def SENSITIVE_PARAMS : List String := ["password", "token", "apiKey", "secret"]

-- Routes to skip logging (e.g., health checks, static files)
def SKIP_LOGGING_ROUTES : List String := ["/health", "/ping", "/static"]

/-- The query-masking loop of `logRequest`: for each sensitive key whose value
is truthy, replace the value by the fixed mask `"****"`. -/
def maskQuery (q : List (String × String)) : List (String × String) :=
  q.map (fun p => if p.1 ∈ SENSITIVE_PARAMS ∧ p.2 ≠ "" then (p.1, "****") else p)

/-- The body-masking loop of `logRequest`: for each sensitive key whose value
is truthy, replace the value by its HTML-stripped version. -/
def maskBody (b : List (String × String)) : List (String × String) :=
  b.map (fun p => if p.1 ∈ SENSITIVE_PARAMS ∧ p.2 ≠ "" then (p.1, sanitize p.2) else p)

/-- `correlationId` selection of `logRequest`:
`req.headers["x-correlation-id"] || req.headers["correlation-id"] || uuidv4()`. -/
def pickCorrelationId (hs : List (String × String)) (fresh : String) : String :=
  match truthyLookup hs "x-correlation-id" with
  | some v => v
  | none =>
    match truthyLookup hs "correlation-id" with
    | some v => v
    | none => fresh

/-- JS object-property assignment `hs[k] = v` on an association list:
overwrite in place if the key exists, else append. -/
def setHeader (hs : List (String × String)) (k v : String) : List (String × String) :=
  match hs with
  | [] => [(k, v)]
  | (k0, v0) :: t => if k0 = k then (k, v) :: t else (k0, v0) :: setHeader t k v

/-- The single structured entry `logRequest` emits inside `res.on("finish")`.
`headersLogged` records whether the full header set was attached (non-production
only); the high-resolution response time is not modelled. -/
structure LogEntry where
  correlationId : String
  method : String
  url : String
  ip : String
  userAgent : Option String
  query : Option (List (String × String))
  body : Option (List (String × String))
  statusCode : Int
  level : String
  headersLogged : Bool
deriving DecidableEq

/-- Observable outcome of `logRequest` for one request: the emitted entry
(`none` when the request was skipped) and the request headers after the
middleware ran.  Control always passes to `next`. -/
structure LogReqOut where
  entry : Option LogEntry
  headersAfter : List (String × String)
deriving DecidableEq

/-- The `logRequest` middleware (global-error.middleware.ts lines 41-136).
`env` is `NODE_ENV`, `samplingRate` is `LOG_SAMPLING_RATE`, `rnd` the
`Math.random()` draw, `fresh` the `uuidv4()` draw, and `finalStatus` the
response's eventual `res.statusCode` observed by the finish callback. -/
def logRequest (env : String) (samplingRate rnd : ℚ) (fresh : String)
    (req : Req) (finalStatus : Int) : LogReqOut :=
  -- Skip logging for specified routes (partial match for paths like /static/*)
  if SKIP_LOGGING_ROUTES.any (fun r => startsWith req.originalUrl r) then
    { entry := none, headersAfter := req.headers }
  -- Skip logging based on sampling rate
  else if samplingRate < 1 ∧ samplingRate < rnd then
    { entry := none, headersAfter := req.headers }
  else
    let correlationId := pickCorrelationId req.headers fresh
    let headers1 := setHeader req.headers "x-correlation-id" correlationId
    let sanitizedQuery := maskQuery req.query
    -- Mask sensitive body parameters (only in development for POST/PUT)
    let sanitizedBody : Option (List (String × String)) :=
      if env ≠ "production" ∧ (req.method = "POST" ∨ req.method = "PUT") then
        match req.body with
        | some b => some (maskBody b)
        | none => none
      else none
    { entry := some
        { correlationId := correlationId
          method := req.method
          url := req.originalUrl
          ip := req.ip
          userAgent := req.userAgent
          query := if 0 < sanitizedQuery.length then some sanitizedQuery else none
          body := sanitizedBody
          statusCode := finalStatus
          level := if 400 ≤ finalStatus then "error" else "info"
          headersLogged := env != "production" }
      headersAfter := headers1 }

/-- Observable startup events of the entrypoint (part_000) together with
`connectDB` (db.ts). -/
inductive StartupEvent where
  | connectStart
  | listenBound (port : Int)
  | dbConnected (host : String)
  | processExit (code : Int)
deriving DecidableEq

/-- The startup sequence of the entrypoint: `connectDB()` is invoked WITHOUT
`await`, so the synchronous phase continues immediately and `app.listen` binds
the socket; the `catch` inside `connectDB` (which calls `process.exit(1)` on a
failed `mongoose.connect`) runs strictly after the synchronous phase, by the
JS event-loop ordering of promise rejection handlers.  `dbOk` is whether
`mongoose.connect` succeeds, `host` the connected host, `port` the resolved
`PORT`. -/
def startup (dbOk : Bool) (host : String) (port : Int) : List StartupEvent :=
  [StartupEvent.connectStart, StartupEvent.listenBound port] ++
    (if dbOk then [StartupEvent.dbConnected host] else [StartupEvent.processExit 1])

/-! ## Concrete sample values used by the witnesses and counterexamples -/

/-- A plain GET request with no headers, query or body. -/
def demoReq : Req :=
  { headers := []
    method := "GET"
    originalUrl := "/api/x"
    ip := "127.0.0.1"
    userAgent := none
    query := []
    body := none }

/-- A realistic expired-token error from the `jsonwebtoken` library: an
`Error` instance with `name = "TokenExpiredError"` and message "jwt expired". -/
def tokenExpiredErr : ErrorValue :=
  { name := some "TokenExpiredError"
    code := none
    message := "jwt expired"
    stack := some "TokenExpiredError: jwt expired"
    isError := true
    isMongooseValidationError := false
    validationErrors := []
    isMongooseCastError := false
    path := ""
    value := ""
    retryAfter := none
    keyValue := []
    isAppError := false
    appStatusCode := 0
    isOperational := false }

/-- A realistic duplicate-key error from the MongoDB driver: an `Error`
instance with `name = "MongoServerError"`, `code = 11000` and
`keyValue = {email: "a@b.com"}`. -/
def dupKeyErr : ErrorValue :=
  { name := some "MongoServerError"
    code := some (JsCode.num 11000)
    message := "E11000 duplicate key error collection"
    stack := some "MongoServerError: E11000"
    isError := true
    isMongooseValidationError := false
    validationErrors := []
    isMongooseCastError := false
    path := ""
    value := ""
    retryAfter := none
    keyValue := [("email", "a@b.com")]
    isAppError := false
    appStatusCode := 0
    isOperational := false }

/-- A realistic mongoose validation error: an `Error` instance with one
per-field message, and its own top-level message. -/
def validationErr : ErrorValue :=
  { name := some "ValidationError"
    code := none
    message := "User validation failed"
    stack := some "ValidationError: User validation failed"
    isError := true
    isMongooseValidationError := true
    validationErrors := [("email", "Email is required")]
    isMongooseCastError := false
    path := ""
    value := ""
    retryAfter := none
    keyValue := []
    isAppError := false
    appStatusCode := 0
    isOperational := false }

/-- A development-mode POST carrying a sensitive plain-text body field. -/
def postReq : Req :=
  { headers := []
    method := "POST"
    originalUrl := "/api/login"
    ip := "127.0.0.1"
    userAgent := none
    query := []
    body := some [("password", "hunter2")] }

/-- A request to a skip-listed health route. -/
def healthReq : Req :=
  { headers := []
    method := "GET"
    originalUrl := "/health"
    ip := "127.0.0.1"
    userAgent := none
    query := []
    body := none }

/-! ## Helper lemmas -/

theorem string_append_assoc (a b c : String) : a ++ b ++ c = a ++ (b ++ c) := by
  apply String.ext
  simp [String.data_append]

theorem lookup_setHeader (hs : List (String × String)) (k v : String) :
    (setHeader hs k v).lookup k = some v := by
  induction hs with
  | nil => simp [setHeader, List.lookup]
  | cons p t ih =>
    obtain ⟨k0, v0⟩ := p
    by_cases h : k0 = k
    · simp [setHeader, h, List.lookup]
    · have hne : (k == k0) = false := by
        simp only [beq_eq_false_iff_ne, ne_eq]
        exact fun hk => h hk.symm
      simp only [setHeader, if_neg h, List.lookup, hne]
      exact ih

/-- Both skip branches of `logRequest` return the request untouched and emit
no entry. -/
theorem logRequest_skipped (env : String) (rate rnd : ℚ) (fresh : String)
    (req : Req) (fs : Int)
    (h : SKIP_LOGGING_ROUTES.any (fun r => startsWith req.originalUrl r) = true ∨
      (rate < 1 ∧ rate < rnd)) :
    logRequest env rate rnd fresh req fs =
      { entry := none, headersAfter := req.headers } := by
  unfold logRequest
  rcases h with h | h
  · rw [if_pos h]
  · by_cases h1 : SKIP_LOGGING_ROUTES.any (fun r => startsWith req.originalUrl r) = true
    · rw [if_pos h1]
    · rw [if_neg h1, if_pos h]

/-- When `logRequest` does emit an entry, the entry is exactly the record the
main branch builds, and the headers carry the chosen correlation id. -/
theorem logRequest_logged (env : String) (rate rnd : ℚ) (fresh : String)
    (req : Req) (fs : Int) (en : LogEntry)
    (hen : (logRequest env rate rnd fresh req fs).entry = some en) :
    en =
      { correlationId := pickCorrelationId req.headers fresh
        method := req.method
        url := req.originalUrl
        ip := req.ip
        userAgent := req.userAgent
        query := if 0 < (maskQuery req.query).length then some (maskQuery req.query) else none
        body :=
          if env ≠ "production" ∧ (req.method = "POST" ∨ req.method = "PUT") then
            (match req.body with
              | some b => some (maskBody b)
              | none => none)
          else none
        statusCode := fs
        level := if 400 ≤ fs then "error" else "info"
        headersLogged := env != "production" } ∧
    (logRequest env rate rnd fresh req fs).headersAfter =
      setHeader req.headers "x-correlation-id" (pickCorrelationId req.headers fresh) := by
  unfold logRequest at hen ⊢
  split at hen
  · simp at hen
  · split at hen
    · simp at hen
    · rename_i h1 h2
      rw [if_neg h1, if_neg h2]
      simp only [Option.some.injEq] at hen
      exact ⟨hen.symm, rfl⟩

/-! ## Claim theorems -/

/-- C1 (counterexample): a genuine expired-token error — an `Error` instance
with `name = "TokenExpiredError"` and its own message "jwt expired" — yields
status 401 and errorCode "ERR-JWT-EXPIRED-401", but the response message is the
sanitized `error.message`, not the fixed text: the native-error fallback
(line 101) overrides it, here under NODE_ENV = "production".  This refutes the
claim that every error named "TokenExpiredError" gets the fixed message. -/
theorem c1_counterexample :
    (errorHandler "production" demoReq 500 "Internal Server Error" tokenExpiredErr
        "u-corr" "0123456789abcdef").resp.status = 401 ∧
    (errorHandler "production" demoReq 500 "Internal Server Error" tokenExpiredErr
        "u-corr" "0123456789abcdef").resp.errorCode = "ERR-JWT-EXPIRED-401" ∧
    (errorHandler "production" demoReq 500 "Internal Server Error" tokenExpiredErr
        "u-corr" "0123456789abcdef").resp.message = "jwt expired" ∧
    (errorHandler "production" demoReq 500 "Internal Server Error" tokenExpiredErr
        "u-corr" "0123456789abcdef").resp.message ≠ ERROR_MESSAGES_tokenExpired := by
  decide

/-- C1 (amended): for every error value whose `name` is "TokenExpiredError" and
that matches no other overwriting branch (not a mongoose validation error, not
the rate-limit code, not an AppError), the response has status 401 and
errorCode "ERR-JWT-EXPIRED-401" for every NODE_ENV; the fixed message
"Your token has expired. Please login again." is kept only when the value is
not an `Error` instance — when it is, the native-error fallback replaces the
message with the sanitized `error.message`. -/
theorem c1_amended (env : String) (req : Req) (s0 : Int) (m0 : String)
    (e : ErrorValue) (u1 u2 : String)
    (hname : e.name = some "TokenExpiredError")
    (hval : e.isMongooseValidationError = false)
    (hrate : e.code ≠ some (JsCode.str "RATE_LIMIT_EXCEEDED"))
    (happ : e.isAppError = false) :
    (errorHandler env req s0 m0 e u1 u2).resp.status = 401 ∧
    (errorHandler env req s0 m0 e u1 u2).resp.errorCode = "ERR-JWT-EXPIRED-401" ∧
    (errorHandler env req s0 m0 e u1 u2).resp.message =
      (if e.isError then sanitize e.message else ERROR_MESSAGES_tokenExpired) := by
  cases hcast : e.isMongooseCastError <;> cases hE : e.isError <;>
    simp [errorHandler, classify, truthyKey, hname, hval, hrate, happ, hcast, hE]

/-- C1 (witness): the amended theorem applied to the concrete expired-token
error under NODE_ENV = "development". -/
theorem c1_amended_witness :
    (errorHandler "development" demoReq 500 "Internal Server Error" tokenExpiredErr
        "u-corr" "0123456789abcdef").resp.status = 401 ∧
    (errorHandler "development" demoReq 500 "Internal Server Error" tokenExpiredErr
        "u-corr" "0123456789abcdef").resp.errorCode = "ERR-JWT-EXPIRED-401" ∧
    (errorHandler "development" demoReq 500 "Internal Server Error" tokenExpiredErr
        "u-corr" "0123456789abcdef").resp.message =
      (if tokenExpiredErr.isError then sanitize tokenExpiredErr.message
       else ERROR_MESSAGES_tokenExpired) :=
  c1_amended "development" demoReq 500 "Internal Server Error" tokenExpiredErr
    "u-corr" "0123456789abcdef" (by decide) (by decide) (by decide) (by decide)

/-- C2 (counterexample): a genuine duplicate-key error — an `Error` instance
with `name = "MongoServerError"`, `code = 11000`, `keyValue = {email:"a@b.com"}`
and its own driver message — yields status 409, errorCode "ERR-DUPLICATE-409"
and details `{field:"email", value:"a@b.com"}`, but the response message is the
sanitized `error.message`, not "Duplicate entry found.": the native-error
fallback fires because the details map set by the duplicate-key branch has no
`message` key.  This refutes the fixed-message part of the claim. -/
theorem c2_counterexample :
    (errorHandler "development" demoReq 500 "Internal Server Error" dupKeyErr
        "u-corr" "0123456789abcdef").resp.status = 409 ∧
    (errorHandler "development" demoReq 500 "Internal Server Error" dupKeyErr
        "u-corr" "0123456789abcdef").resp.errorCode = "ERR-DUPLICATE-409" ∧
    (errorHandler "development" demoReq 500 "Internal Server Error" dupKeyErr
        "u-corr" "0123456789abcdef").resp.details =
      some [("field", DVal.s "email"), ("value", DVal.s "a@b.com")] ∧
    (errorHandler "development" demoReq 500 "Internal Server Error" dupKeyErr
        "u-corr" "0123456789abcdef").resp.message = "E11000 duplicate key error collection" ∧
    (errorHandler "development" demoReq 500 "Internal Server Error" dupKeyErr
        "u-corr" "0123456789abcdef").resp.message ≠ ERROR_MESSAGES_duplicateEntry := by
  decide

/-- C2 (amended): for every error value with `name = "MongoServerError"`,
`code = 11000` and `keyValue = {email:"a@b.com"}` that is not an AppError, the
response has status 409, errorCode "ERR-DUPLICATE-409" and details
`{field:"email", value:"a@b.com"}`; the fixed message "Duplicate entry found."
is kept only when the value is not an `Error` instance — when it is, the
native-error fallback replaces the message with the sanitized `error.message`. -/
theorem c2_amended (env : String) (req : Req) (s0 : Int) (m0 : String)
    (e : ErrorValue) (u1 u2 : String)
    (hname : e.name = some "MongoServerError")
    (hcode : e.code = some (JsCode.num 11000))
    (hkv : e.keyValue = [("email", "a@b.com")])
    (happ : e.isAppError = false) :
    (errorHandler env req s0 m0 e u1 u2).resp.status = 409 ∧
    (errorHandler env req s0 m0 e u1 u2).resp.errorCode = "ERR-DUPLICATE-409" ∧
    (errorHandler env req s0 m0 e u1 u2).resp.details =
      some [("field", DVal.s "email"), ("value", DVal.s "a@b.com")] ∧
    (errorHandler env req s0 m0 e u1 u2).resp.message =
      (if e.isError then sanitize e.message else ERROR_MESSAGES_duplicateEntry) := by
  cases hE : e.isError
  · simp [errorHandler, classify, truthyKey, hname, hcode, hkv, happ, hE]
    decide
  · simp [errorHandler, classify, truthyKey, hname, hcode, hkv, happ, hE]
    exact ⟨by decide, fun h => absurd h (by decide)⟩

/-- C2 (witness): the amended theorem applied to the concrete duplicate-key
error under NODE_ENV = "production". -/
theorem c2_amended_witness :
    (errorHandler "production" demoReq 500 "Internal Server Error" dupKeyErr
        "u-corr" "0123456789abcdef").resp.status = 409 ∧
    (errorHandler "production" demoReq 500 "Internal Server Error" dupKeyErr
        "u-corr" "0123456789abcdef").resp.errorCode = "ERR-DUPLICATE-409" ∧
    (errorHandler "production" demoReq 500 "Internal Server Error" dupKeyErr
        "u-corr" "0123456789abcdef").resp.details =
      some [("field", DVal.s "email"), ("value", DVal.s "a@b.com")] ∧
    (errorHandler "production" demoReq 500 "Internal Server Error" dupKeyErr
        "u-corr" "0123456789abcdef").resp.message =
      (if dupKeyErr.isError then sanitize dupKeyErr.message
       else ERROR_MESSAGES_duplicateEntry) :=
  c2_amended "production" demoReq 500 "Internal Server Error" dupKeyErr
    "u-corr" "0123456789abcdef" (by decide) (by decide) (by decide) (by decide)

/-- C3 (counterexample): a mongoose validation error sets non-empty details
(`{email: "Email is required"}`), yet the native-error fallback still replaces
the validation message "Validation failed" with the sanitized `error.message`:
the fallback tests `!errorDetails.message` (a truthy `message` PROPERTY of the
details object), not emptiness of the details map.  This refutes the claim that
any details set by an earlier rule preserve that rule's message. -/
theorem c3_counterexample :
    (errorHandler "development" demoReq 500 "Internal Server Error" validationErr
        "u-corr" "0123456789abcdef").resp.details =
      some [("email", DVal.s "Email is required")] ∧
    (errorHandler "development" demoReq 500 "Internal Server Error" validationErr
        "u-corr" "0123456789abcdef").resp.message = "User validation failed" ∧
    (errorHandler "development" demoReq 500 "Internal Server Error" validationErr
        "u-corr" "0123456789abcdef").resp.message ≠ ERROR_MESSAGES_validationFailed := by
  decide

/-- C3 (amended): the native-error fallback replaces the resolved message with
the sanitized `error.message` exactly when the error is an `Error` instance and
the resolved details map has no truthy value under the key "message"; details
entries under any other key do not protect the earlier rule's message, and a
non-`Error` value is never rewritten. -/
theorem c3_amended (env : String) (req : Req) (s0 : Int) (m0 : String)
    (e : ErrorValue) (u1 u2 : String) :
    (e.isError = true → truthyKey (classify s0 m0 e u2).details "message" = false →
      (errorHandler env req s0 m0 e u1 u2).resp.message = sanitize e.message) ∧
    (truthyKey (classify s0 m0 e u2).details "message" = true →
      (errorHandler env req s0 m0 e u1 u2).resp.message = (classify s0 m0 e u2).message) ∧
    (e.isError = false →
      (errorHandler env req s0 m0 e u1 u2).resp.message = (classify s0 m0 e u2).message) := by
  refine ⟨fun hE ht => ?_, fun ht => ?_, fun hE => ?_⟩
  · simp [errorHandler, hE, ht]
  · simp [errorHandler, ht]
  · simp [errorHandler, hE]

/-- C3 (witness): the amended theorem applied to the concrete validation error:
it is an `Error` instance, its details `{email: "Email is required"}` have no
"message" key, and its message is indeed rewritten to the sanitized error text. -/
theorem c3_amended_witness :
    (errorHandler "development" demoReq 500 "Internal Server Error" validationErr
        "u-corr" "0123456789abcdef").resp.message = sanitize validationErr.message :=
  (c3_amended "development" demoReq 500 "Internal Server Error" validationErr
      "u-corr" "0123456789abcdef").1 (by decide) (by decide)

/-- C7 (code bug): when `mongoose.connect` fails at startup, the process does
exit with the non-zero status 1, but only after `app.listen` has already bound
the listening socket: the entrypoint calls `connectDB()` without awaiting it,
so the synchronous phase binds the socket before the rejection handler runs.
The claim that no listening socket is bound — the fail-fast policy of the
spec — is violated by the code. -/
theorem c7_startup_trace :
    startup false "" 3000 =
      [StartupEvent.connectStart, StartupEvent.listenBound 3000,
        StartupEvent.processExit 1] ∧
    StartupEvent.processExit 1 ∈ startup false "" 3000 ∧
    StartupEvent.listenBound 3000 ∈ startup false "" 3000 := by
  decide

/-- C8 (confirmed): the success formatter called with status 200, message "ok"
and payload `{x: 1}` produces exactly the envelope
`{success: true, message: "ok", data: {x: 1}}` with status 200 and makes no
call to the logger sink; it inspects no error value at all. -/
theorem c8_success_roundtrip :
    successHandler 200 "ok" [("x", (1 : Int))] =
      { status := 200
        body := { success := true, message := "ok", data := [("x", (1 : Int))] }
        logs := [] } := by
  rfl

/-- The entry `logRequest` produces for `postReq` in development mode with
sampling off: the sensitive body value survives HTML-stripping unchanged. -/
def postReqLogEntry : LogEntry :=
  { correlationId := "u-fresh"
    method := "POST"
    url := "/api/login"
    ip := "127.0.0.1"
    userAgent := none
    query := none
    body := some [("password", "hunter2")]
    statusCode := 200
    level := "info"
    headersLogged := true }

/-- The entry `logRequest` produces for `demoReq` in development mode. -/
def demoEntry : LogEntry :=
  { correlationId := "fresh-1"
    method := "GET"
    url := "/api/x"
    ip := "127.0.0.1"
    userAgent := none
    query := none
    body := none
    statusCode := 200
    level := "info"
    headersLogged := true }

/-- C4 (counterexample): a development-mode POST whose body carries
`password = "hunter2"` (plain text, no HTML) is logged with body value
"hunter2" — exactly the raw inbound value, because body "masking" is
HTML-stripping, which is the identity on plain text.  This refutes the claim
that the logged value is never equal to the raw inbound value. -/
theorem c4_counterexample :
    (logRequest "development" 1 0 "u-fresh" postReq 200).entry.map (fun en => en.body) =
      some (some [("password", "hunter2")]) ∧
    postReq.body = some [("password", "hunter2")] := by
  decide

/-- C4 (amended): in every emitted log entry, a sensitive query parameter with
a non-empty logged value is logged as the fixed mask "****"; a body is logged
at all only when NODE_ENV is not "production" and the method is POST or PUT,
and each logged sensitive body value is the HTML-stripped version of the raw
value — which may equal the raw value, so body values are NOT guaranteed to
differ from the inbound ones. -/
theorem c4_amended (env : String) (rate rnd : ℚ) (fresh : String) (req : Req)
    (fs : Int) (en : LogEntry)
    (hen : (logRequest env rate rnd fresh req fs).entry = some en) :
    (∀ q k v, en.query = some q → (k, v) ∈ q → k ∈ SENSITIVE_PARAMS → v ≠ "" →
      v = "****") ∧
    (∀ b, en.body = some b →
      env ≠ "production" ∧ (req.method = "POST" ∨ req.method = "PUT")) ∧
    (∀ b k v, en.body = some b → (k, v) ∈ b → k ∈ SENSITIVE_PARAMS →
      ∃ raw, (k, raw) ∈ req.body.getD [] ∧ (v = sanitize raw ∨ v = raw)) := by
  obtain ⟨rfl, -⟩ := logRequest_logged env rate rnd fresh req fs en hen
  refine ⟨?_, ?_, ?_⟩
  · intro q k v hq hmem hk hv
    simp only at hq
    split at hq
    · obtain rfl := Option.some.inj hq
      obtain ⟨⟨k0, v0⟩, hp, heq⟩ := List.mem_map.mp hmem
      by_cases hc : k0 ∈ SENSITIVE_PARAMS ∧ v0 ≠ ""
      · rw [if_pos hc] at heq
        exact (Prod.mk.injEq _ _ _ _ ▸ heq).2.symm
      · rw [if_neg hc] at heq
        obtain ⟨rfl, rfl⟩ := Prod.mk.injEq _ _ _ _ ▸ heq
        exact absurd ⟨hk, hv⟩ hc
    · exact absurd hq (by simp)
  · intro b hb
    simp only at hb
    split at hb
    · rename_i hcond
      exact hcond
    · exact absurd hb (by simp)
  · intro b k v hb hmem hk
    simp only at hb
    split at hb
    · cases hBody : req.body with
      | none => rw [hBody] at hb; exact absurd hb (by simp)
      | some b0 =>
        rw [hBody] at hb
        simp only [Option.some.injEq] at hb
        subst hb
        obtain ⟨⟨k0, v0⟩, hp, heq⟩ := List.mem_map.mp hmem
        by_cases hc : k0 ∈ SENSITIVE_PARAMS ∧ v0 ≠ ""
        · rw [if_pos hc] at heq
          obtain ⟨rfl, rfl⟩ := Prod.mk.injEq _ _ _ _ ▸ heq
          exact ⟨v0, by simp [hBody, hp], Or.inl rfl⟩
        · rw [if_neg hc] at heq
          obtain ⟨rfl, rfl⟩ := Prod.mk.injEq _ _ _ _ ▸ heq
          exact ⟨v0, by simp [hBody, hp], Or.inr rfl⟩
    · exact absurd hb (by simp)

/-- C4 (witness): the amended theorem applied to the concrete development-mode
POST; the body is logged because NODE_ENV is "development" and the method is
POST. -/
theorem c4_amended_witness :
    (logRequest "development" 1 0 "u-fresh" postReq 200).entry = some postReqLogEntry ∧
    (("development" : String) ≠ "production" ∧
      (postReq.method = "POST" ∨ postReq.method = "PUT")) :=
  ⟨by decide,
    (c4_amended "development" 1 0 "u-fresh" postReq 200 postReqLogEntry
        (by decide)).2.1 [("password", "hunter2")] (by decide)⟩

/-- C5 (confirmed): for every request whose URL starts with one of the
prefixes "/health", "/ping", "/static", the middleware produces no log entry
(it returns `next()` before any logging work). -/
theorem c5_skip_routes (env : String) (rate rnd : ℚ) (fresh : String)
    (req : Req) (fs : Int)
    (h : ∃ r ∈ SKIP_LOGGING_ROUTES, startsWith req.originalUrl r = true) :
    (logRequest env rate rnd fresh req fs).entry = none := by
  obtain ⟨r, hr, hpre⟩ := h
  rw [logRequest_skipped env rate rnd fresh req fs
    (Or.inl (List.any_eq_true.mpr ⟨r, hr, hpre⟩))]

/-- C5 (witness): a request to "/health" is not logged. -/
theorem c5_skip_routes_witness :
    (logRequest "development" 1 0 "u-fresh" healthReq 200).entry = none :=
  c5_skip_routes "development" 1 0 "u-fresh" healthReq 200
    ⟨"/health", by decide, by decide⟩

/-- C6 (confirmed): for every logged request, the entry's correlation id is
the inbound "x-correlation-id" header if non-empty, else the inbound
"correlation-id" header if non-empty, else the fresh uuid draw; and the
request's "x-correlation-id" header after the middleware carries exactly the
entry's correlation id (the write-back that keeps the id stable across the
entry and response-completion halves). -/
theorem c6_correlation (env : String) (rate rnd : ℚ) (fresh : String)
    (req : Req) (fs : Int) (en : LogEntry)
    (hen : (logRequest env rate rnd fresh req fs).entry = some en) :
    (∀ v, truthyLookup req.headers "x-correlation-id" = some v →
      en.correlationId = v) ∧
    (truthyLookup req.headers "x-correlation-id" = none →
      ∀ v, truthyLookup req.headers "correlation-id" = some v →
        en.correlationId = v) ∧
    (truthyLookup req.headers "x-correlation-id" = none →
      truthyLookup req.headers "correlation-id" = none →
        en.correlationId = fresh) ∧
    (logRequest env rate rnd fresh req fs).headersAfter.lookup "x-correlation-id" =
      some en.correlationId := by
  obtain ⟨rfl, hafter⟩ := logRequest_logged env rate rnd fresh req fs en hen
  refine ⟨?_, ?_, ?_, ?_⟩
  · intro v hv
    simp [pickCorrelationId, hv]
  · intro h0 v hv
    simp [pickCorrelationId, h0, hv]
  · intro h0 h1
    simp [pickCorrelationId, h0, h1]
  · rw [hafter]
    exact lookup_setHeader req.headers "x-correlation-id"
      (pickCorrelationId req.headers fresh)

/-- C6 (witness): the theorem applied to a concrete header-less request: the
fresh uuid draw becomes the entry's correlation id and is written back. -/
theorem c6_correlation_witness :
    (logRequest "development" 1 0 "fresh-1" demoReq 200).entry = some demoEntry ∧
    demoEntry.correlationId = "fresh-1" ∧
    (logRequest "development" 1 0 "fresh-1" demoReq 200).headersAfter.lookup
      "x-correlation-id" = some demoEntry.correlationId :=
  ⟨by decide,
    (c6_correlation "development" 1 0 "fresh-1" demoReq 200 demoEntry
        (by decide)).2.2.1 (by decide) (by decide),
    (c6_correlation "development" 1 0 "fresh-1" demoReq 200 demoEntry
        (by decide)).2.2.2⟩

/-- The error code resolved by the classification chain always starts with
"ERR-", whichever branch resolves it. -/
theorem classify_errorCode_shape (s0 : Int) (m0 : String) (e : ErrorValue)
    (u2 : String) :
    ∃ rest, (classify s0 m0 e u2).errorCode = "ERR-" ++ rest := by
  by_cases h7 : e.isAppError
  · refine ⟨"APP-" ++ toString e.appStatusCode, ?_⟩
    simp only [classify, if_pos h7]
    rw [← string_append_assoc]
    congr 1
  · by_cases h6 : e.name = some "MongoServerError" ∧ e.code = some (JsCode.num 11000)
    · exact ⟨"DUPLICATE-409", by simp [classify, h7, h6]⟩
    · by_cases h5 : e.code = some (JsCode.str "RATE_LIMIT_EXCEEDED")
      · exact ⟨"RATE-LIMIT-429", by simp [classify, h7, h6, h5]⟩
      · by_cases h4 : e.name = some "TokenExpiredError"
        · exact ⟨"JWT-EXPIRED-401", by simp [classify, h7, h6, h5, h4]⟩
        · by_cases h3 : e.name = some "JsonWebTokenError"
          · exact ⟨"JWT-INVALID-401", by simp [classify, h7, h6, h5, h4, h3]⟩
          · by_cases h2 : e.isMongooseCastError
            · exact ⟨"CAST-400", by simp [classify, h7, h6, h5, h4, h3, h2]⟩
            · by_cases h1 : e.isMongooseValidationError
              · exact ⟨"VALIDATION-400",
                  by simp [classify, h7, h6, h5, h4, h3, h2, h1]⟩
              · refine ⟨toString s0 ++ ("-" ++ jsSlice u2 8), ?_⟩
                simp only [classify, if_neg h7, if_neg h6, if_neg h5, if_neg h4,
                  if_neg h3, if_neg h2, if_neg h1]
                rw [string_append_assoc, string_append_assoc]

/-- C9 (confirmed): for every error value, every override and every NODE_ENV,
the response body carries `success: false`, an error code of the shape
`ERR-...` (one of the stable per-category codes, or the default
`ERR-<status>-<8-char-id>`), and a message; a `details` key is present only
when the resolved details map is non-empty; and in production mode no `stack`
key is present. -/
theorem c9_envelope (env : String) (req : Req) (s0 : Int) (m0 : String)
    (e : ErrorValue) (u1 u2 : String) :
    (errorHandler env req s0 m0 e u1 u2).resp.success = false ∧
    (∃ rest, (errorHandler env req s0 m0 e u1 u2).resp.errorCode = "ERR-" ++ rest) ∧
    (∀ d, (errorHandler env req s0 m0 e u1 u2).resp.details = some d → d ≠ []) ∧
    (env = "production" → (errorHandler env req s0 m0 e u1 u2).resp.stack = none) := by
  refine ⟨rfl, ?_, ?_, ?_⟩
  · exact classify_errorCode_shape s0 m0 e u2
  · intro d hd
    simp only [errorHandler] at hd
    split at hd
    · rename_i hlen
      obtain rfl := Option.some.inj hd
      exact List.length_pos.mp hlen
    · exact absurd hd (by simp)
  · intro hp
    simp [errorHandler, hp]

/-- C9 (witness): in production mode the response for a concrete error carries
no stack key. -/
theorem c9_envelope_witness :
    (errorHandler "production" demoReq 500 "Internal Server Error" tokenExpiredErr
        "u-corr" "0123456789abcdef").resp.stack = none :=
  (c9_envelope "production" demoReq 500 "Internal Server Error" tokenExpiredErr
      "u-corr" "0123456789abcdef").2.2.2 rfl

/-- C10 (confirmed): when the middleware skips a request — skip-listed prefix
or sampled out — it emits no entry and leaves the request headers exactly as
they were (no "x-correlation-id" write-back); consequently, for such a request
without a truthy inbound "x-correlation-id" header, the error formatter's log
uses its OWN fresh uuid draw as correlation id. -/
theorem c10_frame (env : String) (rate rnd : ℚ) (fresh : String) (req : Req)
    (fs : Int)
    (hskip : SKIP_LOGGING_ROUTES.any (fun r => startsWith req.originalUrl r) = true ∨
      (rate < 1 ∧ rate < rnd))
    (s0 : Int) (m0 : String) (e : ErrorValue) (u1 u2 : String)
    (hno : truthyLookup req.headers "x-correlation-id" = none) :
    (logRequest env rate rnd fresh req fs).headersAfter = req.headers ∧
    (logRequest env rate rnd fresh req fs).entry = none ∧
    (errorHandler env req s0 m0 e u1 u2).log.correlationId = u1 := by
  rw [logRequest_skipped env rate rnd fresh req fs hskip]
  refine ⟨rfl, rfl, ?_⟩
  simp [errorHandler, hno]

/-- C10 (witness): the theorem applied to a concrete "/health" request without
an inbound correlation header: headers stay empty, nothing is logged, and the
error formatter uses its own uuid draw "u-a". -/
theorem c10_frame_witness :
    (logRequest "development" 1 0 "fresh-1" healthReq 200).headersAfter =
      healthReq.headers ∧
    (logRequest "development" 1 0 "fresh-1" healthReq 200).entry = none ∧
    (errorHandler "development" healthReq 500 "Internal Server Error"
        tokenExpiredErr "u-a" "u-b").log.correlationId = "u-a" :=
  c10_frame "development" 1 0 "fresh-1" healthReq 200 (Or.inl (by decide))
    500 "Internal Server Error" tokenExpiredErr "u-a" "u-b" (by decide)

end MVEcom

